import Mathlib

/-!
Verification of the AI-Horizon frontend (Next.js client of the AI-Horizon
research portal).  The definitions below are a shallow embedding of the
client-side logic of `lib/api.ts` (axios client, response interceptor, API
functions), the `CascadeFilter` component (category → role → task →
classification drill-down), the `SearchBar` component, the Resources page
(`app/resources/page.tsx`: URL-synchronized pagination and filters, remote
query composition) and the `SkillCard` component
(`components/cards/SkillCard.tsx`: dominant classification and confidence).
Strings stand for the JavaScript strings, `Nat` for the non-negative integer
counts, `Option` for possibly-undefined values, and functions
`String → Option String` for `URLSearchParams` maps.
-/

namespace AIHorizon

/-! ## CascadeFilter component (components/features/filter/CascadeFilter.tsx) -/

/-- The `FilterState` interface exported by the CascadeFilter module:
the object propagated to `onFilterChange` and stored by the pages. -/
structure FilterState where
  category : String
  role : String
  taskId : String
  classifications : List String
deriving Repr, DecidableEq

/-- The internal state of the `CascadeFilter` component: the four `useState`
hooks `selectedCategory`, `selectedRole`, `selectedTask`,
`selectedClassifications`. -/
structure CascadeState where
  selectedCategory : String
  selectedRole : String
  selectedTask : String
  selectedClassifications : List String
deriving Repr, DecidableEq

/-- Initial component state: `useState("All")` three times and
`useState<string[]>([])`. -/
def initialCascadeState : CascadeState :=
  { selectedCategory := "All", selectedRole := "All", selectedTask := "All"
    selectedClassifications := [] }

/-- The `toggleClassification` handler:
`prev.includes(cls) ? prev.filter(c => c !== cls) : [...prev, cls]`. -/
def toggleClassification (cls : String) (prev : List String) : List String :=
  if prev.contains cls then prev.filter (fun c => c != cls) else prev ++ [cls]

/-- User interactions on the CascadeFilter: choosing a value in the category,
role or task `Select`, clicking a classification chip, or the Reset button. -/
inductive CascadeEvent where
  | setCategory (val : String)
  | setRole (val : String)
  | setTask (val : String)
  | toggleCls (cls : String)
  | clearFilters
deriving Repr, DecidableEq

/-- State transition of the CascadeFilter, read off the `onValueChange` /
`onClick` handlers: the category handler also runs `setSelectedRole("All")`
and `setSelectedTask("All")` ("Reset downstream"), the role handler also runs
`setSelectedTask("All")`, the task handler only sets the task, the chip
handler toggles, and `clearFilters` resets everything. -/
def cascadeStep (s : CascadeState) : CascadeEvent → CascadeState
  | .setCategory val =>
      { s with selectedCategory := val, selectedRole := "All", selectedTask := "All" }
  | .setRole val =>
      { s with selectedRole := val, selectedTask := "All" }
  | .setTask val =>
      { s with selectedTask := val }
  | .toggleCls cls =>
      { s with selectedClassifications :=
          toggleClassification cls s.selectedClassifications }
  | .clearFilters => initialCascadeState

/-- Whether an interaction is available in state `s`: the task `Select` is
rendered with `disabled={selectedRole === "All" || isLoadingTasks}`, so a task
can only be chosen while the selected role is not `"All"`.  All other
controls are always available (the role `Select` is only disabled while the
roles are loading, which does not depend on the filter state). -/
def eventEnabled (s : CascadeState) : CascadeEvent → Prop
  | .setTask _ => s.selectedRole ≠ "All"
  | _ => True

instance (s : CascadeState) (e : CascadeEvent) : Decidable (eventEnabled s e) := by
  cases e <;> simp only [eventEnabled] <;> infer_instance

/-- States reachable from the initial state by sequences of enabled user
interactions. -/
inductive CascadeReachable : CascadeState → Prop
  | init : CascadeReachable initialCascadeState
  | step {s : CascadeState} {e : CascadeEvent} :
      CascadeReachable s → eventEnabled s e → CascadeReachable (cascadeStep s e)

/-! ## Axios response interceptor (lib/api.ts) -/

/-- An axios error as seen by the response interceptor: `error.response` is
present (with an HTTP status) when the server answered, and absent when no
response was received. -/
structure AxiosError where
  response : Option Nat
deriving Repr, DecidableEq

/-- The error branch of `api.interceptors.response.use`: when a response is
present it logs `console.error` for status 429 (`'Rate limit reached'`) or
503 (`'Service unavailable'`), and in every case returns
`Promise.reject(error)`.  The result is the list of console-error messages
emitted together with the settled promise, `Except.error` standing for a
rejected promise. -/
def onResponseError (error : AxiosError) : List String × Except AxiosError Unit :=
  ((match error.response with
    | some status =>
        if status = 429 then ["Rate limit reached"]
        else if status = 503 then ["Service unavailable"]
        else []
    | none => []),
   Except.error error)

/-! ## HTTP request sites of the frontend -/

/-- The six endpoints the spec's external-interface section names. -/
def specEndpoints : List String :=
  ["/api/chat", "/api/submit", "/api/search", "/api/skills", "/api/resources",
   "/api/stats"]

/-- Every request site in the frontend code: the API functions of
`lib/api.ts` (`fetchStats`, `fetchSkills`, `fetchResources`,
`fetchResourceDetail`, `submitEvidence`, `sendChatMessage`), the two
`useQuery` fetches inside `CascadeFilter` (the roles list and the task
search), and the file-upload mutation of the Submit page. -/
inductive FrontendRequest where
  | fetchStats
  | fetchSkills
  | fetchResources
  | fetchResourceDetail (id : String)
  | submitEvidence
  | sendChatMessage
  | rolesQuery
  | tasksQuery
  | uploadMutation
deriving Repr, DecidableEq

/-- The URL path each request site passes to the axios client. -/
def requestPath : FrontendRequest → String
  | .fetchStats => "/api/stats"
  | .fetchSkills => "/api/skills"
  | .fetchResources => "/api/resources"
  | .fetchResourceDetail id => "/api/evidence/artifact/" ++ id
  | .submitEvidence => "/api/submit"
  | .sendChatMessage => "/api/chat"
  | .rolesQuery => "/api/roles"
  | .tasksQuery => "/api/search"
  | .uploadMutation => "/api/upload"

/-! ## Resources page (app/resources/page.tsx) -/

/-- Client state of `ResourcesContent` that feeds the remote resources
query: the `page` URL parameter (as parsed), the `searchQuery` state hook,
and the `filters` state hook of type `FilterState`. -/
structure ResourcesState where
  page : Nat
  searchQuery : String
  filters : FilterState
deriving Repr, DecidableEq

/-- `roleFilter = filters.role !== 'All' ? filters.role : ''`. -/
def roleFilter (s : ResourcesState) : String :=
  if s.filters.role ≠ "All" then s.filters.role else ""

/-- `taskFilter = filters.taskId !== 'All' ? filters.taskId : ''`. -/
def taskFilter (s : ResourcesState) : String :=
  if s.filters.taskId ≠ "All" then s.filters.taskId else ""

/-- `classificationFilter = filters.classifications.length > 0 ?
filters.classifications[0] : ''`. -/
def classificationFilter (s : ResourcesState) : String :=
  if s.filters.classifications.length > 0 then s.filters.classifications.headD ""
  else ""

/-- The react-query key
`['resources', page, searchQuery, roleFilter, taskFilter,
classificationFilter]`, the page number rendered as a string for uniform
typing.  A change of this key triggers a new remote query. -/
def resourcesQueryKey (s : ResourcesState) : List String :=
  ["resources", toString s.page, s.searchQuery, roleFilter s, taskFilter s,
   classificationFilter s]

/-- The `SearchBar` input handler `onChange={(e) => onChange(e.target.value)}`:
it invokes the `onChange` callback synchronously with the raw input value of
each input event. -/
def searchBarOnChange {α : Type} (onChange : String → α) (targetValue : String) :
    α :=
  onChange targetValue

/-- On the Resources page the SearchBar's `onChange` is `setSearchQuery`, so
a keystroke carrying value `val` immediately replaces `searchQuery`. -/
def handleSearchChange (s : ResourcesState) (val : String) : ResourcesState :=
  searchBarOnChange (fun v => { s with searchQuery := v }) val

/-- The remote query keys produced while a sequence of keystroke values is
typed into the search bar: each keystroke updates the state and react-query
immediately observes the new `queryKey`. -/
def searchQueryKeys : ResourcesState → List String → List (List String)
  | _, [] => []
  | s, k :: ks =>
      resourcesQueryKey (handleSearchChange s k) ::
        searchQueryKeys (handleSearchChange s k) ks

/-- A `URLSearchParams` map: parameter names to values, `none` for an absent
parameter. -/
def URLParams : Type := String → Option String

/-- `handlePageChange`: copies the current search params, runs
`params.set('page', newPage.toString())` and pushes the result; every
parameter other than `page` is carried over unchanged. -/
def handlePageChange (searchParams : URLParams) (newPage : Nat) : URLParams :=
  fun key => if key = "page" then some (toString newPage) else searchParams key

/-- `urlRole = searchParams.get('role') || 'All'` — with JS `||`, a missing
or empty `role` parameter falls back to `'All'`. -/
def urlRoleOf (searchParams : URLParams) : String :=
  match searchParams "role" with
  | none => "All"
  | some s => if s = "" then "All" else s

/-- The URL-sync `useEffect` of the Resources page:
`if (urlRole !== filters.role) setFilters(prev => ({ ...prev, role: urlRole }))`. -/
def syncRoleEffect (filters : FilterState) (urlRole : String) : FilterState :=
  if urlRole ≠ filters.role then { filters with role := urlRole } else filters

/-- The four clickable pagination controls rendered on the Resources page. -/
inductive PaginationAction where
  | clickPrevious
  | clickNext
  | prevPageLink
  | nextPageLink
deriving Repr, DecidableEq

/-- The page number a pagination interaction writes to the URL, read off
the rendered handlers: `PaginationPrevious` runs
`if (page > 1) handlePageChange(page - 1)`, `PaginationNext` runs
`if (page < data.total_pages) handlePageChange(page + 1)`, and the numbered
`PaginationLink`s for `page - 1` / `page + 1` are only rendered under
`page > 1` / `page < data.total_pages` respectively.  `none` means the
interaction triggers no navigation. -/
def paginationWrite (page totalPages : Nat) : PaginationAction → Option Nat
  | .clickPrevious => if page > 1 then some (page - 1) else none
  | .clickNext => if page < totalPages then some (page + 1) else none
  | .prevPageLink => if page > 1 then some (page - 1) else none
  | .nextPageLink => if page < totalPages then some (page + 1) else none

/-! ## Tasks query of the CascadeFilter -/

/-- A DCWF task search result as consumed by the task dropdown (the fields
it renders: `task_id` and `task_name`). -/
structure SearchResult where
  task_id : String
  task_name : String
deriving Repr, DecidableEq

/-- The `enabled` flag of the tasks `useQuery`: `selectedRole !== "All"`. -/
def tasksQueryEnabled (selectedRole : String) : Bool :=
  selectedRole != "All"

/-- The tasks `queryFn`: returns `[]` when the selected role is `"All"`,
otherwise fetches `/api/search?job_role=selectedRole`; `server` stands for
the backend's answer per role. -/
def tasksQueryFn (selectedRole : String)
    (server : String → List SearchResult) : List SearchResult :=
  if selectedRole = "All" then [] else server selectedRole

/-- The task list the dropdown consumes: the destructuring
`data: tasks = []` defaults to `[]` while the query is disabled (its data is
undefined); when enabled, the query runs `tasksQueryFn`. -/
def tasksUsed (selectedRole : String)
    (server : String → List SearchResult) : List SearchResult :=
  if tasksQueryEnabled selectedRole then tasksQueryFn selectedRole server else []

/-! ## SkillCard (components/cards/SkillCard.tsx) -/

/-- The `classifications` field of `SkillItem`: evidence counts for the four
labels.  Field `remainHuman` embeds the key `"Remain Human"`, field
`newTask` the key `"New Task"`. -/
structure SkillClassifications where
  Replace : Nat
  Augment : Nat
  remainHuman : Nat
  newTask : Nat
deriving Repr, DecidableEq

/-- `Object.entries(classifications)` in the declared key order. -/
def entries (c : SkillClassifications) : List (String × Nat) :=
  [("Replace", c.Replace), ("Augment", c.Augment),
   ("Remain Human", c.remainHuman), ("New Task", c.newTask)]

/-- The comparator `(a, b) => b[1] - a[1]` orders entries by descending
count. -/
def byCountDesc : (String × Nat) → (String × Nat) → Prop :=
  fun a b => b.2 ≤ a.2

instance : DecidableRel byCountDesc := fun a b => Nat.decLe b.2 a.2

instance : IsTotal (String × Nat) byCountDesc :=
  ⟨fun a b => le_total b.2 a.2⟩

instance : IsTrans (String × Nat) byCountDesc :=
  ⟨fun _ _ _ hab hbc => le_trans hbc hab⟩

/-- The stable sort `entries.sort((a, b) => b[1] - a[1])`. -/
def sortDesc (l : List (String × Nat)) : List (String × Nat) :=
  l.insertionSort byCountDesc

/-- `getDominantClassification`: sorts the entries by descending count and
returns the first label, with the JS `|| 'Augment'` fallback for a missing
or empty first label. -/
def getDominantClassification (c : SkillClassifications) : String :=
  match (sortDesc (entries c)).head? with
  | some p => if p.1 = "" then "Augment" else p.1
  | none => "Augment"

/-- `Object.values(classifications)` in the declared key order. -/
def values (c : SkillClassifications) : List Nat :=
  [c.Replace, c.Augment, c.remainHuman, c.newTask]

/-- `total = Object.values(classifications).reduce((a, b) => a + b, 0)`. -/
def totalCount (c : SkillClassifications) : Nat :=
  (values c).foldl (· + ·) 0

/-- `Math.max(...Object.values(classifications))`; all counts are
non-negative, so folding `max` from `0` agrees with `Math.max`. -/
def maxCount (c : SkillClassifications) : Nat :=
  (values c).foldl Nat.max 0

/-- `getConfidence`: `0.7` when the total is zero, otherwise
`max / total`, as an exact rational. -/
def getConfidence (c : SkillClassifications) : ℚ :=
  if totalCount c = 0 then 7 / 10 else (maxCount c : ℚ) / (totalCount c : ℚ)

/-! ## fetchResources request construction (lib/api.ts) -/

/-- A query-string value sent to the backend (`string | number`). -/
inductive ParamValue where
  | nat (n : Nat)
  | str (s : String)
deriving Repr, DecidableEq

/-- The argument type of `fetchResources`:
`SearchParams & { page?: number; limit?: number }`, every field possibly
undefined. -/
structure SearchParams where
  page : Option Nat
  limit : Option Nat
  query : Option String
  job_role : Option String
  dcwf_task : Option String
  classification : Option String
deriving Repr, DecidableEq

/-- The `backendParams` object built by `fetchResources`: keys `page`,
`limit`, `role` (mapped from `job_role`), and `resource_type` and
`difficulty` both set to `undefined`; entries whose value is `undefined` are
then deleted.  The `query`, `dcwf_task` and `classification` fields of the
argument are never copied into this object. -/
def backendParams (params : SearchParams) : List (String × ParamValue) :=
  ([("page", params.page.map ParamValue.nat),
    ("limit", params.limit.map ParamValue.nat),
    ("role", params.job_role.map ParamValue.str),
    ("resource_type", (none : Option ParamValue)),
    ("difficulty", (none : Option ParamValue))]).filterMap
    (fun kv => kv.2.map (fun v => (kv.1, v)))

/-- The argument the Resources page `queryFn` passes to `fetchResources`:
`{ page, limit: 20, query: searchQuery, job_role: roleFilter || undefined,
dcwf_task: taskFilter || undefined,
classification: classificationFilter || undefined }`. -/
def resourcesRequest (s : ResourcesState) : SearchParams :=
  { page := some s.page
    limit := some 20
    query := some s.searchQuery
    job_role := if roleFilter s = "" then none else some (roleFilter s)
    dcwf_task := if taskFilter s = "" then none else some (taskFilter s)
    classification :=
      if classificationFilter s = "" then none
      else some (classificationFilter s) }

/-- Replaces the selected classification chips of a Resources page state. -/
def withClassifications (s : ResourcesState) (l : List String) : ResourcesState :=
  { s with filters := { s.filters with classifications := l } }

end AIHorizon

namespace AIHorizon

/-! ## Theorems -/

/-- C1: in the CascadeFilter, changing the category resets role and task to
"All", changing the role resets the task to "All", and in every reachable
state a task other than "All" implies a role other than "All". -/
theorem cascadeFilter_drilldown_order :
    (∀ (s : CascadeState) (val : String),
        (cascadeStep s (.setCategory val)).selectedRole = "All" ∧
        (cascadeStep s (.setCategory val)).selectedTask = "All") ∧
    (∀ (s : CascadeState) (val : String),
        (cascadeStep s (.setRole val)).selectedTask = "All") ∧
    (∀ s : CascadeState, CascadeReachable s →
        s.selectedTask ≠ "All" → s.selectedRole ≠ "All") := by
  refine ⟨fun s val => ⟨rfl, rfl⟩, fun s val => rfl, fun s hs => ?_⟩
  induction hs with
  | init => simp [initialCascadeState]
  | step hr he ih =>
      rename_i s' e
      cases e with
      | setCategory val => simp [cascadeStep]
      | setRole val => simp [cascadeStep]
      | setTask val =>
          intro _
          simpa [cascadeStep] using he
      | toggleCls cls =>
          simpa [cascadeStep] using ih
      | clearFilters => simp [cascadeStep, initialCascadeState]

/-- Witness for C1: the concrete interaction sequence
select role "Analyst", then select task "T0123" is admissible, and in the
resulting reachable state the theorem yields a role different from "All". -/
theorem cascadeFilter_drilldown_order_witness :
    (cascadeStep (cascadeStep initialCascadeState (.setRole "Analyst"))
        (.setTask "T0123")).selectedRole ≠ "All" :=
  cascadeFilter_drilldown_order.2.2 _
    (CascadeReachable.step (CascadeReachable.step CascadeReachable.init trivial)
      (by decide))
    (by decide)

/-- C2: the response interceptor logs a console error exactly for statuses
429 and 503, and always returns a rejected promise carrying the original
error unchanged. -/
theorem interceptor_logs_and_rejects :
    ∀ error : AxiosError,
      ((onResponseError error).1 ≠ [] ↔
        (error.response = some 429 ∨ error.response = some 503)) ∧
      (onResponseError error).2 = Except.error error := by
  intro error
  obtain ⟨st⟩ := error
  cases st with
  | none => simp [onResponseError]
  | some status =>
      by_cases h429 : status = 429
      · subst h429; simp [onResponseError]
      · by_cases h503 : status = 503
        · subst h503; simp [onResponseError]
        · simp [onResponseError, h429, h503]

/-- Helper for C8: toggling a label that is in the list removes every
occurrence of it. -/
theorem toggleClassification_of_mem {l : List String} {c : String} (hc : c ∈ l) :
    toggleClassification c l = l.filter (fun x => x != c) := by
  simp [toggleClassification, List.elem_iff, hc]

/-- Helper for C8: toggling a label that is not in the list appends it. -/
theorem toggleClassification_of_not_mem {l : List String} {c : String} (hc : c ∉ l) :
    toggleClassification c l = l ++ [c] := by
  simp [toggleClassification, List.elem_iff, hc]

/-- C8 counterexample: on the duplicate-free selection `["a", "b"]`, toggling
`"a"` twice yields `["b", "a"]`, which is not equal to the original list:
the toggled label moves to the end. -/
theorem toggleClassification_twice_ne :
    (["a", "b"] : List String).Nodup ∧ "a" ∈ (["a", "b"] : List String) ∧
    toggleClassification "a" (toggleClassification "a" ["a", "b"]) = ["b", "a"] ∧
    toggleClassification "a" (toggleClassification "a" ["a", "b"]) ≠ ["a", "b"] := by
  refine ⟨by decide, by decide, ?_, by decide⟩
  decide

/-- C8 amended: on a duplicate-free selection, toggling removes every
occurrence of a present label and appends an absent one; applying it twice
with the same label returns a permutation of the original selection (the
original itself when the label was absent), not necessarily the original
list in order. -/
theorem toggleClassification_twice_perm :
    ∀ (l : List String) (c : String), l.Nodup →
      (c ∈ l → c ∉ toggleClassification c l) ∧
      (c ∉ l → toggleClassification c l = l ++ [c] ∧
        toggleClassification c (toggleClassification c l) = l) ∧
      List.Perm (toggleClassification c (toggleClassification c l)) l := by
  intro l c hnd
  by_cases hc : c ∈ l
  · have h1 : toggleClassification c l = l.filter (fun x => x != c) :=
      toggleClassification_of_mem hc
    have hcf : c ∉ l.filter (fun x => x != c) := by simp
    have h2 : toggleClassification c (l.filter (fun x => x != c)) =
        l.filter (fun x => x != c) ++ [c] := toggleClassification_of_not_mem hcf
    refine ⟨fun _ => h1 ▸ hcf, fun h => absurd hc h, ?_⟩
    rw [h1, h2, ← hnd.erase_eq_filter c]
    exact (List.perm_append_singleton c _).trans (List.perm_cons_erase hc).symm
  · have h1 : toggleClassification c l = l ++ [c] := toggleClassification_of_not_mem hc
    have h2 : toggleClassification c (l ++ [c]) = (l ++ [c]).filter (fun x => x != c) :=
      toggleClassification_of_mem (by simp)
    have h3 : (l ++ [c]).filter (fun x => x != c) = l := by
      rw [List.filter_append]
      have h4 : l.filter (fun x => x != c) = l :=
        List.filter_eq_self.mpr (fun x hx => by
          simp only [bne_iff_ne, ne_eq, decide_eq_true_eq]
          rintro rfl; exact hc hx)
      simp [h4]
    have htw : toggleClassification c (toggleClassification c l) = l := by
      rw [h1, h2, h3]
    exact ⟨fun h => absurd h hc, fun _ => ⟨h1, htw⟩, by rw [htw]⟩

/-- Witness for C8 amended: applied to the concrete duplicate-free selection
`["a", "b"]` and label `"c"`, double toggling gives back a permutation of
the selection. -/
theorem toggleClassification_twice_perm_witness :
    List.Perm (toggleClassification "c" (toggleClassification "c" ["a", "b"]))
      ["a", "b"] :=
  (toggleClassification_twice_perm ["a", "b"] "c" (by decide)).2.2

/-- C3 counterexample: the frontend also requests `/api/roles` (CascadeFilter
roles query), `/api/upload` (Submit page upload mutation) and
`/api/evidence/artifact/{id}` (`fetchResourceDetail`), none of which is
among the six listed endpoints. -/
theorem frontend_requests_beyond_six :
    requestPath .rolesQuery ∉ specEndpoints ∧
    requestPath .uploadMutation ∉ specEndpoints ∧
    requestPath (.fetchResourceDetail "abc123") ∉ specEndpoints := by
  refine ⟨?_, ?_, ?_⟩ <;> decide

/-- C3 amended: every HTTP request issued by the frontend targets one of the
six listed endpoints or one of the three further paths `/api/roles`,
`/api/upload`, `/api/evidence/artifact/{id}`. -/
theorem frontend_requests_nine_endpoints :
    ∀ r : FrontendRequest,
      requestPath r ∈ specEndpoints ∨ requestPath r = "/api/roles" ∨
      requestPath r = "/api/upload" ∨
      ∃ id : String, requestPath r = "/api/evidence/artifact/" ++ id := by
  intro r
  cases r with
  | fetchResourceDetail id => exact Or.inr (Or.inr (Or.inr ⟨id, rfl⟩))
  | rolesQuery => exact Or.inr (Or.inl rfl)
  | uploadMutation => exact Or.inr (Or.inr (Or.inl rfl))
  | fetchStats => exact Or.inl (by decide)
  | fetchSkills => exact Or.inl (by decide)
  | fetchResources => exact Or.inl (by decide)
  | submitEvidence => exact Or.inl (by decide)
  | sendChatMessage => exact Or.inl (by decide)
  | tasksQuery => exact Or.inl (by decide)

/-- Witness for C3 amended: applied to the concrete roles request. -/
theorem frontend_requests_nine_endpoints_witness :
    requestPath .rolesQuery ∈ specEndpoints ∨ requestPath .rolesQuery = "/api/roles" ∨
    requestPath .rolesQuery = "/api/upload" ∨
    ∃ id : String, requestPath .rolesQuery = "/api/evidence/artifact/" ++ id :=
  frontend_requests_nine_endpoints .rolesQuery

/-- C4 counterexample: typing "a" then "ab" into the search bar of the
Resources page produces one remote query key per keystroke, each immediately
carrying the intermediate input value; a single keystroke already changes
the query key, so changes are not coalesced before a remote query is
triggered. -/
theorem search_not_debounced :
    (handleSearchChange ⟨1, "", ⟨"All", "All", "All", []⟩⟩ "a").searchQuery = "a" ∧
    resourcesQueryKey (handleSearchChange ⟨1, "", ⟨"All", "All", "All", []⟩⟩ "a") ≠
      resourcesQueryKey ⟨1, "", ⟨"All", "All", "All", []⟩⟩ ∧
    searchQueryKeys ⟨1, "", ⟨"All", "All", "All", []⟩⟩ ["a", "ab"] =
      [["resources", "1", "a", "", "", ""], ["resources", "1", "ab", "", "", ""]] := by
  refine ⟨rfl, ?_, ?_⟩ <;> decide

/-- C4 amended: search input is not debounced.  The SearchBar invokes its
`onChange` synchronously on every input event, and on the Resources page
every keystroke immediately replaces `searchQuery` inside the remote query
key, so a sequence of keystrokes yields exactly one remote query key per
keystroke, each carrying that keystroke's full intermediate value.  (On the
Skills page the search query only filters the already-fetched list
client-side.) -/
theorem search_changes_propagate_immediately :
    ∀ (s : ResourcesState) (ks : List String),
      searchQueryKeys s ks = ks.map (fun k =>
        ["resources", toString s.page, k, roleFilter s, taskFilter s,
         classificationFilter s]) := by
  intro s ks
  induction ks generalizing s with
  | nil => rfl
  | cons k ks ih =>
      show resourcesQueryKey (handleSearchChange s k) ::
          searchQueryKeys (handleSearchChange s k) ks = _
      rw [ih (handleSearchChange s k)]
      rfl

/-- Witness for C4 amended: applied to a concrete state and keystrokes. -/
theorem search_changes_propagate_immediately_witness :
    searchQueryKeys ⟨1, "", ⟨"All", "All", "All", []⟩⟩ ["x"] =
      (["x"] : List String).map (fun k =>
        ["resources", toString (1 : Nat), k,
         roleFilter ⟨1, "", ⟨"All", "All", "All", []⟩⟩,
         taskFilter ⟨1, "", ⟨"All", "All", "All", []⟩⟩,
         classificationFilter ⟨1, "", ⟨"All", "All", "All", []⟩⟩]) :=
  search_changes_propagate_immediately ⟨1, "", ⟨"All", "All", "All", []⟩⟩ ["x"]

/-- C5: Previous navigates only when the page exceeds 1 and writes page - 1,
Next only when the page is below the total and writes page + 1; every
pagination action started within [1, total] writes a page within
[1, total], and that page is what `handlePageChange` stores under the
`page` URL parameter. -/
theorem pagination_stays_in_range :
    ∀ (page totalPages : Nat) (a : PaginationAction) (q : Nat),
      1 ≤ page → page ≤ totalPages →
      ((paginationWrite page totalPages .clickPrevious = some q →
          1 < page ∧ q = page - 1) ∧
       (paginationWrite page totalPages .clickNext = some q →
          page < totalPages ∧ q = page + 1) ∧
       (paginationWrite page totalPages a = some q →
          1 ≤ q ∧ q ≤ totalPages ∧
          ∀ params : URLParams,
            handlePageChange params q "page" = some (toString q))) := by
  intro page totalPages a q h1 h2
  refine ⟨?_, ?_, ?_⟩
  · simp only [paginationWrite]
    split
    · rename_i hgt
      intro h
      obtain rfl : page - 1 = q := by simpa using h
      exact ⟨hgt, rfl⟩
    · intro h; simp at h
  · simp only [paginationWrite]
    split
    · rename_i hlt
      intro h
      obtain rfl : page + 1 = q := by simpa using h
      exact ⟨hlt, rfl⟩
    · intro h; simp at h
  · intro h
    have hq : 1 ≤ q ∧ q ≤ totalPages := by
      cases a <;>
        (simp only [paginationWrite] at h
         split at h
         · rename_i hc
           obtain rfl := Option.some.inj h
           omega
         · exact Option.noConfusion h)
    exact ⟨hq.1, hq.2, fun params => by simp [handlePageChange]⟩

/-- Witness for C5: on page 2 of 3, clicking Next writes page 3, which lies
within [1, 3] and lands in the `page` URL parameter. -/
theorem pagination_stays_in_range_witness :
    paginationWrite 2 3 .clickNext = some 3 ∧
    1 ≤ 3 ∧ 3 ≤ 3 ∧
    ∀ params : URLParams, handlePageChange params 3 "page" = some (toString 3) :=
  ⟨by decide, (pagination_stays_in_range 2 3 .clickNext 3 (by decide) (by decide)).2.2
    (by decide)⟩

/-- C6: `handlePageChange` writes only the `page` parameter and carries every
other URL parameter over unchanged, and whenever the URL role parameter
differs from the current role filter the sync effect sets the role filter to
exactly that URL value (leaving the other filter fields unchanged). -/
theorem url_sync_frame :
    ∀ (params : URLParams) (newPage : Nat),
      handlePageChange params newPage "page" = some (toString newPage) ∧
      (∀ key : String, key ≠ "page" →
        handlePageChange params newPage key = params key) ∧
      (∀ f : FilterState, urlRoleOf params ≠ f.role →
        (syncRoleEffect f (urlRoleOf params)).role = urlRoleOf params ∧
        (syncRoleEffect f (urlRoleOf params)).category = f.category ∧
        (syncRoleEffect f (urlRoleOf params)).taskId = f.taskId ∧
        (syncRoleEffect f (urlRoleOf params)).classifications =
          f.classifications) := by
  intro params newPage
  refine ⟨by simp [handlePageChange], fun key hk => by simp [handlePageChange, hk],
    fun f hne => ?_⟩
  simp [syncRoleEffect, hne]

/-- Witness for C6: with the URL `?role=Engineer` and the role filter at
"All", navigating to page 2 keeps the role parameter and the sync effect
sets the role filter to "Engineer". -/
theorem url_sync_frame_witness :
    handlePageChange (fun k => if k = "role" then some "Engineer" else none) 2
        "role" = some "Engineer" ∧
    (syncRoleEffect ⟨"All", "All", "All", []⟩
        (urlRoleOf (fun k => if k = "role" then some "Engineer" else none))).role =
      urlRoleOf (fun k => if k = "role" then some "Engineer" else none) := by
  refine ⟨?_, ?_⟩
  · exact ((url_sync_frame (fun k => if k = "role" then some "Engineer" else none)
      2).2.1 "role" (by decide)).trans rfl
  · exact ((url_sync_frame (fun k => if k = "role" then some "Engineer" else none)
      2).2.2 ⟨"All", "All", "All", []⟩ (by decide)).1

/-- C7: the tasks query is enabled exactly when the selected role is not
"All", and with the role at "All" both the query function's result and the
task list the dropdown consumes are empty. -/
theorem tasks_query_gated_by_role :
    ∀ server : String → List SearchResult,
      (∀ role : String, tasksQueryEnabled role = true ↔ role ≠ "All") ∧
      tasksQueryFn "All" server = [] ∧
      tasksUsed "All" server = [] := by
  intro server
  refine ⟨fun role => ?_, rfl, rfl⟩
  simp [tasksQueryEnabled]

/-- Witness for C7: applied to a concrete backend answer. -/
theorem tasks_query_gated_by_role_witness :
    tasksUsed "All" (fun _ => [⟨"T1", "task one"⟩]) = [] :=
  (tasks_query_gated_by_role (fun _ => [⟨"T1", "task one"⟩])).2.2

/-- Helper for C9: every entry of the classification-count record carries a
non-empty label. -/
theorem entries_label_ne_empty (c : SkillClassifications) :
    ∀ p ∈ entries c, p.1 ≠ "" := by
  intro p hp
  simp only [entries, List.mem_cons, List.not_mem_nil, or_false] at hp
  rcases hp with h | h | h | h <;> subst h
  · exact (show ("Replace" : String) ≠ "" by decide)
  · exact (show ("Augment" : String) ≠ "" by decide)
  · exact (show ("Remain Human" : String) ≠ "" by decide)
  · exact (show ("New Task" : String) ≠ "" by decide)

/-- Helper for C9: the total is the sum of the four counts. -/
theorem totalCount_eq (c : SkillClassifications) :
    totalCount c = c.Replace + c.Augment + c.remainHuman + c.newTask := by
  simp only [totalCount, values, List.foldl]
  omega

/-- Helper for C9: the maximum count is bounded by the total and the total
by four times the maximum. -/
theorem maxCount_le_totalCount (c : SkillClassifications) :
    maxCount c ≤ totalCount c ∧ totalCount c ≤ 4 * maxCount c := by
  have hmx : ∀ x y : Nat, Nat.max x y = max x y := fun _ _ => rfl
  simp only [maxCount, totalCount, values, List.foldl, hmx]
  omega

/-- C9: `getDominantClassification` returns a label whose count is at least
every other label's count, and `getConfidence` returns 0.7 exactly when all
four counts are zero and otherwise the maximum count divided by the total,
which lies in [1/4, 1]. -/
theorem skillCard_dominant_and_confidence :
    ∀ c : SkillClassifications,
      (∃ p ∈ entries c, getDominantClassification c = p.1 ∧
        ∀ q ∈ entries c, q.2 ≤ p.2) ∧
      (totalCount c = 0 ↔
        c.Replace = 0 ∧ c.Augment = 0 ∧ c.remainHuman = 0 ∧ c.newTask = 0) ∧
      (totalCount c = 0 → getConfidence c = 7 / 10) ∧
      (totalCount c ≠ 0 →
        getConfidence c = (maxCount c : ℚ) / (totalCount c : ℚ) ∧
        1 / 4 ≤ getConfidence c ∧ getConfidence c ≤ 1) := by
  intro c
  have hperm : List.Perm (sortDesc (entries c)) (entries c) :=
    List.perm_insertionSort byCountDesc (entries c)
  have hsorted : List.Sorted byCountDesc (sortDesc (entries c)) :=
    List.sorted_insertionSort byCountDesc (entries c)
  obtain ⟨p, t, he⟩ : ∃ p t, sortDesc (entries c) = p :: t := by
    cases hsd : sortDesc (entries c) with
    | nil =>
        exfalso
        have hlen := hperm.length_eq
        rw [hsd] at hlen
        simp [entries] at hlen
    | cons p t => exact ⟨p, t, rfl⟩
  have hpmem : p ∈ entries c := hperm.subset (he ▸ List.mem_cons_self p t)
  have hpne : p.1 ≠ "" := entries_label_ne_empty c p hpmem
  have hdom : getDominantClassification c = p.1 := by
    simp [getDominantClassification, he, hpne]
  refine ⟨⟨p, hpmem, hdom, fun q hq => ?_⟩, ?_, fun h0 => ?_, fun hne => ?_⟩
  · have hq' : q ∈ sortDesc (entries c) := hperm.mem_iff.mpr hq
    rw [he] at hq'
    rcases List.mem_cons.mp hq' with rfl | hqt
    · exact le_refl _
    · exact List.rel_of_sorted_cons (he ▸ hsorted) q hqt
  · rw [totalCount_eq c]
    omega
  · simp [getConfidence, h0]
  · have heq : getConfidence c = (maxCount c : ℚ) / (totalCount c : ℚ) := by
      simp [getConfidence, hne]
    have hTpos : (0 : ℚ) < (totalCount c : ℚ) := by
      exact_mod_cast Nat.pos_of_ne_zero hne
    obtain ⟨hMT, hT4M⟩ := maxCount_le_totalCount c
    refine ⟨heq, ?_, ?_⟩
    · rw [heq, div_le_div_iff₀ (by norm_num) hTpos]
      have hc : (totalCount c : ℚ) ≤ 4 * (maxCount c : ℚ) := by exact_mod_cast hT4M
      linarith
    · rw [heq, div_le_one hTpos]
      exact_mod_cast hMT

/-- Witness for C9: on the concrete record with counts 3, 1, 0, 0 the total
is non-zero and the confidence is max over total, inside [1/4, 1]. -/
theorem skillCard_dominant_and_confidence_witness :
    totalCount ⟨3, 1, 0, 0⟩ ≠ 0 ∧
    getConfidence ⟨3, 1, 0, 0⟩ =
      (maxCount ⟨3, 1, 0, 0⟩ : ℚ) / (totalCount ⟨3, 1, 0, 0⟩ : ℚ) ∧
    1 / 4 ≤ getConfidence ⟨3, 1, 0, 0⟩ ∧ getConfidence ⟨3, 1, 0, 0⟩ ≤ 1 :=
  ⟨by decide,
   (skillCard_dominant_and_confidence ⟨3, 1, 0, 0⟩).2.2.2 (by decide)⟩

/-- C10 counterexample: with the chips `["Replace", "Augment"]` selected (and
no other filter), the first selection does reach the `fetchResources`
argument, but the backend request parameters contain no `classification` key
at all — only `page` and `limit` are sent. -/
theorem classification_chip_not_in_request :
    (resourcesRequest ⟨1, "", ⟨"All", "All", "All", ["Replace", "Augment"]⟩⟩).classification =
      some "Replace" ∧
    "classification" ∉
      (backendParams (resourcesRequest
        ⟨1, "", ⟨"All", "All", "All", ["Replace", "Augment"]⟩⟩)).map Prod.fst ∧
    (backendParams (resourcesRequest
        ⟨1, "", ⟨"All", "All", "All", ["Replace", "Augment"]⟩⟩)).map Prod.fst =
      ["page", "limit"] := by
  refine ⟨rfl, ?_, ?_⟩ <;> decide

/-- C10 amended: the first-selected classification chip is the only one that
reaches the query (it alone forms `classificationFilter`, hence the query
key and the `fetchResources` argument), but `fetchResources` omits the
classification from the backend request parameters entirely, so no
classification parameter is ever sent — whether or not chips are selected;
the remaining selected chips have no effect at all. -/
theorem backendParams_keys (p : SearchParams) :
    (backendParams p).map Prod.fst =
      (if p.page.isSome then ["page"] else []) ++
      (if p.limit.isSome then ["limit"] else []) ++
      (if p.job_role.isSome then ["role"] else []) := by
  rcases p with ⟨pg, lm, q, jr, dt, cl⟩
  cases pg <;> cases lm <;> cases jr <;> simp [backendParams]

/-- Helper for C10: replacing the chips leaves the role filter string
unchanged. -/
theorem roleFilter_withClassifications (s : ResourcesState) (l : List String) :
    roleFilter (withClassifications s l) = roleFilter s := rfl

/-- Helper for C10: replacing the chips leaves the task filter string
unchanged. -/
theorem taskFilter_withClassifications (s : ResourcesState) (l : List String) :
    taskFilter (withClassifications s l) = taskFilter s := rfl

/-- Helper for C10: with at least one chip selected, the classification
filter is the first chip, whatever follows it. -/
theorem classificationFilter_withCons (s : ResourcesState) (c : String)
    (l : List String) :
    classificationFilter (withClassifications s (c :: l)) = c := by
  simp [classificationFilter, withClassifications]

/-- Helper for C10: the query key under a non-empty chip selection mentions
only the first chip. -/
theorem resourcesQueryKey_withCons (s : ResourcesState) (c : String)
    (l : List String) :
    resourcesQueryKey (withClassifications s (c :: l)) =
      ["resources", toString s.page, s.searchQuery, roleFilter s, taskFilter s,
       c] := by
  simp only [resourcesQueryKey, roleFilter_withClassifications,
    taskFilter_withClassifications, classificationFilter_withCons]
  rfl

/-- Helper for C10: the `fetchResources` argument under a non-empty chip
selection depends only on the first chip. -/
theorem resourcesRequest_withCons (s : ResourcesState) (c : String)
    (l : List String) :
    resourcesRequest (withClassifications s (c :: l)) =
      { page := some s.page
        limit := some 20
        query := some s.searchQuery
        job_role := if roleFilter s = "" then none else some (roleFilter s)
        dcwf_task := if taskFilter s = "" then none else some (taskFilter s)
        classification := if c = "" then none else some c } := by
  simp only [resourcesRequest, roleFilter_withClassifications,
    taskFilter_withClassifications, classificationFilter_withCons]
  rfl

/-- C10 amended: the first-selected classification chip is the only one that
reaches the query (it alone forms `classificationFilter`, hence the query
key and the `fetchResources` argument), but `fetchResources` omits the
classification from the backend request parameters entirely, so no
classification parameter is ever sent — whether or not chips are selected;
the remaining selected chips have no effect at all. -/
theorem classification_param_never_sent :
    ∀ s : ResourcesState,
      "classification" ∉ (backendParams (resourcesRequest s)).map Prod.fst ∧
      (∀ (c : String) (rest rest' : List String),
        backendParams (resourcesRequest (withClassifications s (c :: rest))) =
          backendParams (resourcesRequest (withClassifications s (c :: rest'))) ∧
        resourcesQueryKey (withClassifications s (c :: rest)) =
          resourcesQueryKey (withClassifications s (c :: rest')) ∧
        classificationFilter (withClassifications s (c :: rest)) = c) ∧
      (s.filters.classifications = [] →
        (resourcesRequest s).classification = none) := by
  intro s
  refine ⟨?_, fun c rest rest' =>
    ⟨by rw [resourcesRequest_withCons s c rest, resourcesRequest_withCons s c rest'],
     by rw [resourcesQueryKey_withCons s c rest, resourcesQueryKey_withCons s c rest'],
     classificationFilter_withCons s c rest⟩, fun h0 => ?_⟩
  · rw [backendParams_keys (resourcesRequest s)]
    split_ifs <;> decide
  · simp [resourcesRequest, classificationFilter, h0]

/-- Witness for C10 amended: at the concrete state with no chip selected, no
classification key is among the request parameters and the
`fetchResources` argument's classification is undefined. -/
theorem classification_param_never_sent_witness :
    "classification" ∉
      (backendParams (resourcesRequest ⟨1, "", ⟨"All", "All", "All", []⟩⟩)).map
        Prod.fst ∧
    (resourcesRequest ⟨1, "", ⟨"All", "All", "All", []⟩⟩).classification = none :=
  ⟨(classification_param_never_sent ⟨1, "", ⟨"All", "All", "All", []⟩⟩).1,
   (classification_param_never_sent ⟨1, "", ⟨"All", "All", "All", []⟩⟩).2.2 rfl⟩

end AIHorizon
